import Mathlib

/-!
# Verification of the BIAI knowledge-base engine

Shallow embedding of the document-derivation and retrieval code of the BIAI
repository (`build_knowledge_base.py`, `build_knowledge_base_enhanced.py`,
`src/biai_server/server.py`, `src/biai_server/enhanced_formatter.py`,
`kb_mcp_server.py`), together with proofs about the embedded definitions.

Modelling conventions:
* Python strings are Lean `String`s; character-level processing works on
  `List Char` (`String.data`).
* The regex character class `\w` is modelled as ASCII alphanumerics plus
  underscore (`Char.isAlphanum` is ASCII-only), and `\s` as the six ASCII
  whitespace characters recognised by Python's `re`; the repository's SQL
  identifiers are ASCII.
* The regexes in the source are concrete enough that their backtracking
  semantics collapse to deterministic scanners; each scanner is written out
  explicitly and annotated with the regex it implements.
* Scanners that restart after a successful match (`re.finditer`, `re.sub`)
  are written with an explicit fuel argument initialised to the input
  length; every step consumes at least one character and one unit of fuel,
  so the fuel never runs out.
* Python floats reaching the relevance computation are modelled as exact
  rationals; `int()` is truncation toward zero, which agrees with the
  floor on the nonnegative values this code applies it to.
* External collaborators (the embedding service's MD5-independent hash
  `hashlib.md5`, `datetime.now`, the Chroma vector store, and LangChain's
  `RecursiveCharacterTextSplitter`) are parameters of the embedded
  functions.
-/

namespace BIAI

/-! ## Character classes and small Python-string helpers -/

/-- The regex class `\w` (ASCII model): letters, digits, underscore. -/
def isWordChar (c : Char) : Bool := c.isAlphanum || c = '_'

/-- The regex class `\s` (ASCII): the whitespace characters of Python `re`. -/
def isSpaceChar (c : Char) : Bool :=
  c = ' ' || c = '\t' || c = '\n' || c = '\r' || c = '\x0b' || c = '\x0c'

/-- `str.upper()` on ASCII input. -/
def pyUpper (s : String) : String := String.mk (s.data.map Char.toUpper)

/-- `str.strip()`: remove leading and trailing whitespace. -/
def pyStripList (l : List Char) : List Char :=
  ((l.dropWhile isSpaceChar).reverse.dropWhile isSpaceChar).reverse

/-- `str.strip()` on `String`. -/
def pyStrip (s : String) : String := String.mk (pyStripList s.data)

/-- Python `sep.join(parts)`. -/
def pyJoin (sep : String) : List String → String
  | [] => ""
  | [x] => x
  | x :: y :: rest => x ++ sep ++ pyJoin sep (y :: rest)

/-- `str.split('\n')` on the underlying character list: split at every
newline, keeping empty parts (`"".split('\n') == [""]`). -/
def splitOnNl : List Char → List (List Char)
  | [] => [[]]
  | c :: rest =>
    if c = '\n' then [] :: splitOnNl rest
    else
      match splitOnNl rest with
      | l :: ls => (c :: l) :: ls
      | [] => [[c]]

/-- `str.split('\n')` on `String`. -/
def pySplitLines (s : String) : List String := (splitOnNl s.data).map String.mk

/-- Boolean string-prefix test on the underlying character lists. -/
def listPrefix : List Char → List Char → Bool
  | [], _ => true
  | _ :: _, [] => false
  | a :: as, b :: bs => a = b && listPrefix as bs

/-- `str.startswith(pre)`. -/
def startsWithLit (pre s : String) : Bool := listPrefix pre.data s.data

/-- Consume an optional backtick (the regex fragment `` `? ``). -/
def stripBacktick (l : List Char) : List Char :=
  match l with
  | c :: t => if c = '`' then t else l
  | [] => l

/-- Match a literal pattern case-insensitively (`re.IGNORECASE`); the
pattern is given with letters already uppercase.  Returns the remainder. -/
def matchLitCI : List Char → List Char → Option (List Char)
  | [], s => some s
  | _ :: _, [] => none
  | k :: ks, c :: cs => if c.toUpper = k then matchLitCI ks cs else none

/-- Match a literal pattern case-sensitively.  Returns the remainder. -/
def matchLit : List Char → List Char → Option (List Char)
  | [], s => some s
  | _ :: _, [] => none
  | k :: ks, c :: cs => if c = k then matchLit ks cs else none

/-! ## Table-name extraction from SQL (`_extract_tables_from_sql`)

`build_knowledge_base.py`, lines 175–203.  The four patterns
`FROM\s+`? `(\w+\.)?(\w+)`? `?` (and the same with `JOIN`, `INTO`,
`UPDATE`) are scanned with `re.finditer(..., re.IGNORECASE)`; group 2 is
the table name (the database qualifier captured by group 1 is dropped). -/

/-- Match `` \s+`?(\w+\.)?(\w+)`? `` at the head of `s`, returning group 2
and the remainder after the match.  The backtracking of the regex collapses
to: if a word run followed by a dot followed by a word run is present, the
second run is captured; if the dot or the second run is absent, the first
word run is captured (the optional group 1 does not participate). -/
def matchTableRef (s : List Char) : Option (String × List Char) :=
  let sp := s.takeWhile isSpaceChar
  let r1 := s.dropWhile isSpaceChar
  if sp = [] then none else
  let r2 := stripBacktick r1
  let w1 := r2.takeWhile isWordChar
  let r3 := r2.dropWhile isWordChar
  if w1 = [] then none else
  match r3 with
  | c :: r4 =>
    if c = '.' then
      let w2 := r4.takeWhile isWordChar
      if w2 = [] then some (String.mk w1, r3)
      else some (String.mk w2, stripBacktick (r4.dropWhile isWordChar))
    else some (String.mk w1, stripBacktick r3)
  | [] => some (String.mk w1, [])

/-- One `re.finditer` pass for a single keyword pattern: scan left to
right, collecting group 2 of every non-overlapping match.  `fuel` is
initialised to the input length; each step consumes at least one character
and exactly one unit of fuel. -/
def scanKwAux (kw : List Char) : Nat → List Char → List String
  | 0, _ => []
  | _ + 1, [] => []
  | fuel + 1, c :: cs =>
    match matchLitCI kw (c :: cs) with
    | some rest =>
      match matchTableRef rest with
      | some (t, rem) => t :: scanKwAux kw fuel rem
      | none => scanKwAux kw fuel cs
    | none => scanKwAux kw fuel cs

/-- All group-2 captures of the pattern for one keyword over `sql`. -/
def scanKw (kw : String) (sql : String) : List String :=
  scanKwAux kw.data sql.data.length sql.data

/-- The SQL keywords excluded from the table-name candidate set
(line 200 of `build_knowledge_base.py`). -/
def sqlKeywordBlacklist : List String :=
  ["SELECT", "WHERE", "GROUP", "ORDER", "HAVING"]

/-- Lexicographic comparison of character lists by code point: Python's
`<` on `str`. -/
def listLt : List Char → List Char → Bool
  | [], [] => false
  | [], _ :: _ => true
  | _ :: _, [] => false
  | a :: as, b :: bs => a.toNat < b.toNat || (a.toNat = b.toNat && listLt as bs)

/-- Python's `<` on strings (code-point lexicographic order). -/
def pyStrLt (s t : String) : Bool := listLt s.data t.data

/-- Insert into a strictly sorted list, dropping duplicates: the model of
accumulating into a Python `set` and returning `sorted(list(...))`. -/
def insertSorted (x : String) : List String → List String
  | [] => [x]
  | y :: ys =>
    if pyStrLt x y then x :: y :: ys
    else if x = y then y :: ys
    else y :: insertSorted x ys

/-- `sorted(list(set(l)))`. -/
def sortDedup (l : List String) : List String :=
  l.foldl (fun acc t => insertSorted t acc) []

/-- The raw candidate captures of all four keyword patterns, in pattern
order (`FROM`, `JOIN`, `INTO`, `UPDATE`). -/
def tableRefCandidates (sql : String) : List String :=
  scanKw "FROM" sql ++ scanKw "JOIN" sql ++ scanKw "INTO" sql ++ scanKw "UPDATE" sql

/-- `KnowledgeBaseBuilder._extract_tables_from_sql` (lines 175–203):
collect group 2 of each pattern match, keep it when it is nonempty and its
uppercase form is not a blacklisted keyword, deduplicate and sort. -/
def _extract_tables_from_sql (sql : String) : List String :=
  sortDedup ((tableRefCandidates sql).filter
    (fun t => decide (t ≠ "" ∧ pyUpper t ∉ sqlKeywordBlacklist)))

/-! ## Data model: LangChain documents with scalar metadata -/

/-- A scalar metadata value (the Python dict values used by the builders:
strings, ints and bools). -/
inductive MetaValue where
  | str : String → MetaValue
  | int : Int → MetaValue
  | bool : Bool → MetaValue
deriving DecidableEq

/-- `langchain_core.documents.Document`: rendered content plus a metadata
mapping, modelled as an association list in source order. -/
structure Document where
  page_content : String
  metadata : List (String × MetaValue)
deriving DecidableEq

/-- How Python's f-string renders a scalar metadata value. -/
def metaToString : MetaValue → String
  | .str s => s
  | .int n => toString n
  | .bool b => if b then "True" else "False"

/-- `doc.metadata.get(key, default)`, rendered to a string. -/
def metadata_get (doc : Document) (key default : String) : String :=
  match doc.metadata.lookup key with
  | some v => metaToString v
  | none => default

/-! ## Relevance percentage and result formatting
(`src/biai_server/enhanced_formatter.py`; `query_test` in
`build_knowledge_base.py`) -/

/-- Python `int()` on an exact rational: truncation toward zero. -/
def pyInt (x : ℚ) : ℤ := Int.tdiv x.num x.den

/-- Line 42 (and the identical line 100) of `enhanced_formatter.py`:
`similarity = int((1 - score) * 100) if score < 1 else int(score * 100)`.
Distances are modelled as exact rationals. -/
def similarity (score : ℚ) : ℤ :=
  if score < 1 then pyInt ((1 - score) * 100) else pyInt (score * 100)

/-- Line 551 of `build_knowledge_base.py` (`query_test`):
`relevance = max(0, 100 - score * 100)`. -/
def query_test_relevance (score : ℚ) : ℚ := max 0 (100 - score * 100)

/-- `"=" * 80`. -/
def eqLine80 : String := String.mk (List.replicate 80 '=')

/-- `"-" * 80`. -/
def dashLine80 : String := String.mk (List.replicate 80 '-')

/-- The output parts appended for one entry of `format_table_results`
(lines 40–68 of `enhanced_formatter.py`). -/
def format_table_entry (rank : Nat) (doc : Document) (score : ℚ) : List String :=
  let table_id := metadata_get doc "table_id" ""
  let table_name := metadata_get doc "table_name" "未知表名"
  let chunk_content := metadata_get doc "chunk_content" ""
  let column_description := metadata_get doc "column_description" ""
  ["\n[" ++ toString rank ++ "] 表ID: " ++ table_id ++ " | 表名: " ++ table_name ++
      " | 相似度: " ++ toString (similarity score) ++ "%",
    dashLine80]
  ++ (if chunk_content ≠ "" then [chunk_content] else [doc.page_content])
  ++ (if column_description ≠ "" then ["\n【补充字段说明】", column_description] else [])
  ++ ["\n" ++ eqLine80]

/-- `enhanced_formatter.format_table_results` (lines 14–70). -/
def format_table_results (results : List (Document × ℚ)) (query : String) : String :=
  if results = [] then "未找到与「" ++ query ++ "」相关的数据表。"
  else
    pyJoin "\n"
      (["查询: " ++ query, "找到 " ++ toString results.length ++ " 个相关表\n", eqLine80]
        ++ ((List.enumFrom 1 results).map
              (fun p => format_table_entry p.1 p.2.1 p.2.2)).flatten)

/-- The output parts appended for one entry of `format_requirement_results`
(lines 98–127 of `enhanced_formatter.py`). -/
def format_requirement_entry (rank : Nat) (doc : Document) (score : ℚ) : List String :=
  let query_id := metadata_get doc "query_id" ""
  let name := metadata_get doc "name" "未命名需求"
  let requirement := metadata_get doc "requirement" ""
  ["\n[" ++ toString rank ++ "] Query ID: " ++ query_id ++ " | 名称: " ++ name ++
      " | 相似度: " ++ toString (similarity score) ++ "%",
    dashLine80]
  ++ (if query_id ≠ "" then
        ["📊 Redash 查询 ID: " ++ query_id,
         "💡 可通过 mcp_redash_execute_query(queryId=" ++ query_id ++ ") 执行", ""]
      else [])
  ++ (if requirement ≠ "" then ["【业务需求】", requirement] else [doc.page_content])
  ++ ["\n" ++ eqLine80]

/-- `enhanced_formatter.format_requirement_results` (lines 73–129). -/
def format_requirement_results (results : List (Document × ℚ)) (query : String) : String :=
  if results = [] then "未找到与「" ++ query ++ "」相关的历史需求。"
  else
    pyJoin "\n"
      (["查询: " ++ query, "找到 " ++ toString results.length ++ " 个相似需求\n", eqLine80]
        ++ ((List.enumFrom 1 results).map
              (fun p => format_requirement_entry p.1 p.2.1 p.2.2)).flatten)

/-! ## Helper lemmas: character classes, prefix scanning, order -/

theorem space_char_cases {c : Char} (h : isSpaceChar c = true) :
    c = ' ' ∨ c = '\t' ∨ c = '\n' ∨ c = '\r' ∨ c = '\x0b' ∨ c = '\x0c' := by
  have h' := h
  simp only [isSpaceChar, Bool.or_eq_true, decide_eq_true_iff] at h'
  tauto

theorem word_not_space {c : Char} (h : isWordChar c = true) : isSpaceChar c = false := by
  cases hs : isSpaceChar c with
  | false => rfl
  | true =>
    exfalso
    rcases space_char_cases hs with h' | h' | h' | h' | h' | h' <;> subst h' <;>
      simp [isWordChar] at h

theorem word_ne_of {c d : Char} (h : isWordChar c = true) (hd : isWordChar d = false) :
    c ≠ d := by
  intro h'; subst h'; rw [h] at hd; exact absurd hd (by decide)

theorem takeWhile_append_of {p : Char → Bool} {a b : List Char}
    (ha : ∀ c ∈ a, p c = true) (hb : ∀ c, b.head? = some c → p c = false) :
    (a ++ b).takeWhile p = a ∧ (a ++ b).dropWhile p = b := by
  induction a with
  | nil =>
    simp only [List.nil_append]
    cases b with
    | nil => simp
    | cons c t => simp [List.takeWhile_cons, List.dropWhile_cons, hb c rfl]
  | cons x xs ih =>
    have hx : p x = true := ha x (List.mem_cons_self ..)
    have ih' := ih (fun c hc => ha c (List.mem_cons_of_mem _ hc))
    simp [List.takeWhile_cons, List.dropWhile_cons, hx, ih'.1, ih'.2]

theorem listLt_irrefl : ∀ a : List Char, listLt a a = false
  | [] => rfl
  | c :: cs => by simp [listLt, listLt_irrefl cs]

theorem listLt_trans : ∀ {a b c : List Char},
    listLt a b = true → listLt b c = true → listLt a c = true
  | [], _ :: _, _ :: _, _, _ => rfl
  | x :: xs, y :: ys, z :: zs, h1, h2 => by
    simp only [listLt, Bool.or_eq_true, Bool.and_eq_true, decide_eq_true_iff] at h1 h2 ⊢
    rcases h1 with h1 | ⟨h1e, h1t⟩ <;> rcases h2 with h2 | ⟨h2e, h2t⟩
    · exact Or.inl (Nat.lt_trans h1 h2)
    · exact Or.inl (h2e ▸ h1)
    · exact Or.inl (h1e ▸ h2)
    · exact Or.inr ⟨h1e.trans h2e, listLt_trans h1t h2t⟩

theorem listLt_eq_of_not : ∀ {a b : List Char},
    listLt a b = false → listLt b a = false → a = b
  | [], [], _, _ => rfl
  | [], _ :: _, h1, _ => by simp [listLt] at h1
  | _ :: _, [], _, h2 => by simp [listLt] at h2
  | x :: xs, y :: ys, h1, h2 => by
    simp only [listLt, Bool.or_eq_false_iff, Bool.and_eq_false_iff,
      decide_eq_false_iff_not] at h1 h2
    have hxy : x.toNat = y.toNat := Nat.le_antisymm
      (Nat.le_of_not_lt h2.1) (Nat.le_of_not_lt h1.1)
    have hx : x = y := Char.eq_of_val_eq (UInt32.ext hxy)
    subst hx
    rcases h1.2 with h1' | h1'
    · exact absurd rfl h1'
    · rcases h2.2 with h2' | h2'
      · exact absurd rfl h2'
      · exact congrArg (x :: ·) (listLt_eq_of_not h1' h2')

theorem pyStrLt_gt_of_not {a b : String} (h1 : pyStrLt a b = false) (h2 : a ≠ b) :
    pyStrLt b a = true := by
  cases hba : pyStrLt b a with
  | true => rfl
  | false => exact absurd (String.ext (listLt_eq_of_not h1 hba)) h2

theorem mem_insertSorted {x : String} : ∀ {l : List String} {y : String},
    y ∈ insertSorted x l ↔ y = x ∨ y ∈ l := by
  intro l
  induction l with
  | nil => intro y; simp [insertSorted]
  | cons z zs ih =>
    intro y
    simp only [insertSorted]
    by_cases h1 : pyStrLt x z = true
    · simp [h1, List.mem_cons]
    · simp only [h1, if_false, Bool.false_eq_true]
      by_cases h2 : x = z
      · subst h2; simp [List.mem_cons]
      · simp [h2, List.mem_cons, ih]
        tauto

theorem pairwise_insertSorted {x : String} : ∀ {l : List String},
    l.Pairwise (fun a b => pyStrLt a b = true) →
    (insertSorted x l).Pairwise (fun a b => pyStrLt a b = true) := by
  intro l
  induction l with
  | nil => intro _; simp [insertSorted]
  | cons z zs ih =>
    intro h
    rw [List.pairwise_cons] at h
    simp only [insertSorted]
    by_cases h1 : pyStrLt x z = true
    · rw [if_pos h1, List.pairwise_cons]
      refine ⟨?_, List.pairwise_cons.mpr h⟩
      intro b hb
      rcases List.mem_cons.mp hb with hb | hb
      · exact hb ▸ h1
      · exact listLt_trans h1 (h.1 b hb)
    · rw [if_neg (by simpa using h1)]
      by_cases h2 : x = z
      · rw [if_pos h2, List.pairwise_cons]; exact h
      · rw [if_neg h2, List.pairwise_cons]
        refine ⟨?_, ih h.2⟩
        intro b hb
        rcases mem_insertSorted.mp hb with hb | hb
        · subst hb; exact pyStrLt_gt_of_not (by simpa using h1) h2
        · exact h.1 b hb

theorem mem_sortDedup_aux : ∀ (l acc : List String) (y : String),
    (y ∈ l.foldl (fun acc t => insertSorted t acc) acc ↔ y ∈ acc ∨ y ∈ l)
  | [], acc, y => by simp
  | t :: ts, acc, y => by
    rw [List.foldl_cons, mem_sortDedup_aux ts (insertSorted t acc) y]
    rw [mem_insertSorted]
    simp [List.mem_cons]
    tauto

theorem mem_sortDedup {l : List String} {y : String} : y ∈ sortDedup l ↔ y ∈ l := by
  rw [sortDedup, mem_sortDedup_aux]
  simp

theorem pairwise_sortDedup_aux : ∀ (l acc : List String),
    acc.Pairwise (fun a b => pyStrLt a b = true) →
    (l.foldl (fun acc t => insertSorted t acc) acc).Pairwise (fun a b => pyStrLt a b = true)
  | [], _, h => h
  | t :: ts, acc, h => by
    rw [List.foldl_cons]
    exact pairwise_sortDedup_aux ts _ (pairwise_insertSorted h)

theorem pairwise_sortDedup (l : List String) :
    (sortDedup l).Pairwise (fun a b => pyStrLt a b = true) :=
  pairwise_sortDedup_aux l [] (List.Pairwise.nil)

theorem nodup_sortDedup (l : List String) : (sortDedup l).Nodup :=
  (pairwise_sortDedup l).imp (fun {a b} h => by
    intro he; subst he; simp [pyStrLt, listLt_irrefl] at h)

theorem stripBacktick_of_head {l : List Char} {c : Char}
    (h : l.head? = some c) (hw : isWordChar c = true) : stripBacktick l = l := by
  cases l with
  | nil => simp at h
  | cons a t =>
    simp only [List.head?_cons, Option.some.injEq] at h
    subst h
    simp [stripBacktick, word_ne_of hw (show isWordChar '`' = false by decide)]

/-! ## Claim C2: table-name extraction -/

/-- **C2.** `_extract_tables_from_sql` returns exactly the group-2 captures
of the `FROM`/`JOIN`/`INTO`/`UPDATE` patterns that are nonempty and whose
uppercase form is not one of `SELECT, WHERE, GROUP, ORDER, HAVING`; the
result is strictly sorted in Python's code-point string order (hence
deduplicated); and on `"SELECT * FROM orders o JOIN users u ON ..."` it
yields exactly `["orders", "users"]`. -/
theorem extract_tables_spec :
    (∀ sql t, t ∈ _extract_tables_from_sql sql ↔
      (t ∈ tableRefCandidates sql ∧ t ≠ "" ∧ pyUpper t ∉ sqlKeywordBlacklist)) ∧
    (∀ sql, (_extract_tables_from_sql sql).Pairwise (fun a b => pyStrLt a b = true)) ∧
    (∀ sql, (_extract_tables_from_sql sql).Nodup) ∧
    _extract_tables_from_sql "SELECT * FROM orders o JOIN users u ON ..." =
      ["orders", "users"] := by
  refine ⟨?_, fun _ => pairwise_sortDedup _, fun _ => nodup_sortDedup _, by decide⟩
  intro sql t
  rw [_extract_tables_from_sql, mem_sortDedup, List.mem_filter]
  simp [decide_eq_true_iff, and_assoc]

/-- Witness for C2 at a concrete input. -/
theorem extract_tables_spec_witness :
    "orders" ∈ _extract_tables_from_sql "SELECT * FROM orders o JOIN users u ON ..." :=
  (extract_tables_spec.1 _ "orders").mpr ⟨by decide, by decide, by decide⟩

/-! ## Claim C4: relevance percentage -/

theorem pyInt_eq_floor {x : ℚ} (h : 0 ≤ x) : pyInt x = ⌊x⌋ := by
  rw [Rat.floor_def, pyInt]
  exact Int.tdiv_eq_ediv (Rat.num_nonneg.mpr h) (Int.ofNat_nonneg _)

theorem pyInt_nonneg {x : ℚ} (h : 0 ≤ x) : 0 ≤ pyInt x :=
  Int.tdiv_nonneg (Rat.num_nonneg.mpr h) (Int.ofNat_nonneg _)

/-- **C4, counterexample.**  The formatter's percentage is not clamped to
100: at distance `3/2` it displays `150`, and `int(score * 100)` exceeds
100 whenever the distance exceeds `1.01`. -/
theorem similarity_not_clamped :
    similarity (mkRat 3 2) = 150 ∧ 100 < similarity (mkRat 3 2) := by
  have hlt : ¬ (mkRat 3 2 < 1) := by decide
  have h32 : (mkRat 3 2 : ℚ) = 3 / 2 := by rw [Rat.mkRat_eq_div]; norm_num
  have h150 : (mkRat 3 2 : ℚ) * 100 = 150 := by rw [h32]; norm_num
  have : similarity (mkRat 3 2) = 150 := by
    rw [similarity, if_neg hlt, h150, pyInt]
    norm_num
  exact ⟨this, by rw [this]; norm_num⟩

/-- **C4 (amended).**  The percentage displayed by
`enhanced_formatter.format_table_results` / `format_requirement_results`
is `int((1 - distance) * 100)` when `distance < 1` and
`int(distance * 100)` otherwise; it is never negative, and it is bounded
by 100 only on the 0–1 distance scale (distances above 1 yield values
above 100, see the counterexample).  On nonnegative arguments `int()`
agrees with the floor.  `query_test` in `build_knowledge_base.py` instead
uses `max(0, 100 - score * 100)`, which lies in `[0, 100]` for every
nonnegative distance — the two call sites disagree for distances above 1. -/
theorem similarity_spec :
    (∀ s : ℚ, s < 1 → similarity s = pyInt ((1 - s) * 100)) ∧
    (∀ s : ℚ, 1 ≤ s → similarity s = pyInt (s * 100)) ∧
    (∀ s : ℚ, 0 ≤ similarity s) ∧
    (∀ s : ℚ, 0 ≤ s → s ≤ 1 → similarity s ≤ 100) ∧
    (∀ s : ℚ, 0 ≤ s → pyInt s = ⌊s⌋) ∧
    (∀ s : ℚ, 0 ≤ query_test_relevance s) ∧
    (∀ s : ℚ, 0 ≤ s → query_test_relevance s ≤ 100) := by
  refine ⟨fun s hs => by rw [similarity, if_pos hs],
          fun s hs => by rw [similarity, if_neg (not_lt.mpr hs)],
          fun s => ?_, fun s h0 h1 => ?_,
          fun s => pyInt_eq_floor,
          fun s => le_max_left 0 _,
          fun s h0 => max_le (by norm_num) (by nlinarith)⟩
  · rw [similarity]
    by_cases hs : s < 1
    · rw [if_pos hs]
      exact pyInt_nonneg (by nlinarith)
    · rw [if_neg hs]
      push_neg at hs
      exact pyInt_nonneg (by nlinarith)
  · rw [similarity]
    by_cases hs : s < 1
    · rw [if_pos hs, pyInt_eq_floor (by nlinarith)]
      calc ⌊(1 - s) * 100⌋ ≤ ⌊(100 : ℚ)⌋ := Int.floor_le_floor (by nlinarith)
        _ = 100 := by norm_num
    · rw [if_neg hs]
      push_neg at hs
      have hs1 : s = 1 := le_antisymm h1 hs
      subst hs1
      rw [pyInt_eq_floor (by norm_num)]
      norm_num

/-- Witness for C4 (amended) at concrete distances. -/
theorem similarity_spec_witness :
    (mkRat 1 2 < 1 ∧ similarity (mkRat 1 2) = pyInt ((1 - mkRat 1 2) * 100)) ∧
    ((1 : ℚ) ≤ mkRat 3 2 ∧ similarity (mkRat 3 2) = pyInt (mkRat 3 2 * 100)) ∧
    (0 ≤ similarity (mkRat 1 2)) ∧
    ((0 : ℚ) ≤ mkRat 1 2 ∧ mkRat 1 2 ≤ 1 ∧ similarity (mkRat 1 2) ≤ 100) ∧
    ((0 : ℚ) ≤ mkRat 1 2 ∧ query_test_relevance (mkRat 1 2) ≤ 100) :=
  ⟨⟨by decide, similarity_spec.1 _ (by decide)⟩,
   ⟨by decide, similarity_spec.2.1 _ (by decide)⟩,
   similarity_spec.2.2.1 _,
   ⟨by decide, by decide, similarity_spec.2.2.2.1 _ (by decide) (by decide)⟩,
   ⟨by decide, similarity_spec.2.2.2.2.2.2 _ (by decide)⟩⟩

/-! ## Claim C10: database qualifiers are stripped -/

/-- **C10.** For a qualified identifier `db.table` after one of the four
keywords, the pattern's group 2 — the only group the code keeps — captures
exactly the part after the dot, so only the unqualified table name enters
the result; concretely, `"SELECT * FROM db.orders"` yields `["orders"]`
and the database prefix `"db"` is absent. -/
theorem extract_tables_strips_db_qualifier :
    (∀ sp db tbl r : List Char,
      sp ≠ [] → (∀ c ∈ sp, isSpaceChar c = true) →
      db ≠ [] → (∀ c ∈ db, isWordChar c = true) →
      tbl ≠ [] → (∀ c ∈ tbl, isWordChar c = true) →
      (∀ c, r.head? = some c → isWordChar c = false) →
      (matchTableRef (sp ++ db ++ '.' :: tbl ++ r)).map Prod.fst =
        some (String.mk tbl)) ∧
    _extract_tables_from_sql "SELECT * FROM db.orders" = ["orders"] ∧
    "db" ∉ _extract_tables_from_sql "SELECT * FROM db.orders" := by
  refine ⟨?_, by decide, by decide⟩
  intro sp db tbl r hsp hspAll hdb hdbAll htbl htblAll hr
  obtain ⟨d, ds, rfl⟩ : ∃ d ds, db = d :: ds := by
    cases db with
    | nil => exact absurd rfl hdb
    | cons d ds => exact ⟨d, ds, rfl⟩
  have hdword : isWordChar d = true := hdbAll d (List.mem_cons_self ..)
  have h1 := takeWhile_append_of (p := isSpaceChar) (a := sp)
    (b := (d :: ds) ++ '.' :: (tbl ++ r)) hspAll
    (fun c hc => by
      simp only [List.cons_append, List.head?_cons, Option.some.injEq] at hc
      exact hc ▸ word_not_space hdword)
  have h2 := takeWhile_append_of (p := isWordChar) (a := d :: ds)
    (b := '.' :: (tbl ++ r)) hdbAll
    (fun c hc => by
      simp only [List.head?_cons, Option.some.injEq] at hc
      subst hc; decide)
  have h3 := takeWhile_append_of (p := isWordChar) (a := tbl) (b := r) htblAll hr
  have hsb : stripBacktick ((d :: ds) ++ '.' :: (tbl ++ r)) = (d :: ds) ++ '.' :: (tbl ++ r) :=
    stripBacktick_of_head (by simp) hdword
  simp only [matchTableRef, List.append_assoc, List.cons_append, List.nil_append] at *
  rw [h1.1, h1.2, if_neg hsp, hsb, h2.1, h2.2]
  rw [if_neg (by simp)]
  simp [h3.1, htbl]

/-- Witness for C10 at a concrete qualified reference `" db.ord"`. -/
theorem extract_tables_strips_db_qualifier_witness :
    (matchTableRef ([' '] ++ ['d', 'b'] ++ '.' :: ['o', 'r', 'd'] ++ [])).map Prod.fst =
      some (String.mk ['o', 'r', 'd']) :=
  extract_tables_strips_db_qualifier.1 [' '] ['d', 'b'] ['o', 'r', 'd'] []
    (by decide) (by decide) (by decide) (by decide) (by decide) (by decide)
    (fun c hc => by simp at hc)

/-! ## Retrieval servers (`src/biai_server/server.py`, `kb_mcp_server.py`)

The Chroma vector store is an external collaborator: it is modelled as a
function from the query text and `k` to either a result list or the
message of a raised exception. -/

/-- External vector-store boundary (`Chroma.similarity_search_with_score`);
`Except.error` carries `str(exc)` of a raised exception. -/
structure VectorStore where
  similarity_search_with_score : String → Int → Except String (List (Document × ℚ))

/-- `k = max(1, min(20, k))` (`server.py` lines 134 and 164;
`kb_mcp_server.py` lines 66 and 87). -/
def kb_clamp (k : Int) : Int := max 1 (min 20 k)

/-- `kb_mcp_server._search_tables` (lines 148–180), which is also the body
of `server.py`'s `kb_search_tables` after its clamp (lines 137–150). -/
def _search_tables (table_vectorstore : Option VectorStore)
    (table_kb_path query : String) (k : Int) : String :=
  match table_vectorstore with
  | none => "❌ 表结构知识库未初始化，请检查路径: " ++ table_kb_path
  | some vs =>
    match vs.similarity_search_with_score query k with
    | .error exc => "❌ 表结构检索失败: " ++ exc
    | .ok results =>
      if results = [] then "未找到相关表结构信息。"
      else format_table_results results query

/-- `kb_mcp_server._search_requirements` (lines 183–215), also the body of
`server.py`'s `kb_search_requirements` after its clamp (lines 167–180). -/
def _search_requirements (query_vectorstore : Option VectorStore)
    (query_kb_path query : String) (k : Int) : String :=
  match query_vectorstore with
  | none => "❌ 业务需求知识库未初始化，请检查路径: " ++ query_kb_path
  | some vs =>
    match vs.similarity_search_with_score query k with
    | .error exc => "❌ 业务需求检索失败: " ++ exc
    | .ok results =>
      if results = [] then "未找到相关业务需求。"
      else format_requirement_results results query

/-- The `kb_search_tables` tool (`server.py` lines 122–150,
`kb_mcp_server.py` lines 50–68): clamp `k`, then search. -/
def kb_search_tables (table_vectorstore : Option VectorStore)
    (table_kb_path query : String) (k : Int) : String :=
  _search_tables table_vectorstore table_kb_path query (kb_clamp k)

/-- The `kb_search_requirements` tool (`server.py` lines 152–180,
`kb_mcp_server.py` lines 71–89): clamp `k`, then search. -/
def kb_search_requirements (query_vectorstore : Option VectorStore)
    (query_kb_path query : String) (k : Int) : String :=
  _search_requirements query_vectorstore query_kb_path query (kb_clamp k)

/-- An instrumented store that reports back the `k` it receives, to
observe the value actually sent to the external vector store. -/
def probe_store : VectorStore :=
  ⟨fun _ k => .error (toString k)⟩

/-- First character of a string (used to tell message classes apart). -/
def first_char (s : String) : Option Char := s.data.head?

theorem data_append (a b : String) : (a ++ b).data = a.data ++ b.data := rfl

theorem append_ne_empty_left {a : String} (b : String) (h : a ≠ "") : a ++ b ≠ "" := by
  intro hc
  apply h
  have : (a ++ b).data = [] := by simp [hc]
  rw [data_append] at this
  exact String.ext (List.append_eq_nil.mp this).1

theorem pyJoin_cons_ne_empty (sep x : String) (xs : List String) (h : x ≠ "") :
    pyJoin sep (x :: xs) ≠ "" := by
  cases xs with
  | nil => exact h
  | cons y rest => exact append_ne_empty_left _ (append_ne_empty_left _ h)

theorem format_table_results_ne_empty (results : List (Document × ℚ)) (q : String) :
    format_table_results results q ≠ "" := by
  rw [format_table_results]
  by_cases h : results = []
  · rw [if_pos h]
    exact append_ne_empty_left _ (append_ne_empty_left _ (by decide))
  · rw [if_neg h]
    exact pyJoin_cons_ne_empty _ _ _ (append_ne_empty_left _ (by decide))

theorem format_requirement_results_ne_empty (results : List (Document × ℚ)) (q : String) :
    format_requirement_results results q ≠ "" := by
  rw [format_requirement_results]
  by_cases h : results = []
  · rw [if_pos h]
    exact append_ne_empty_left _ (append_ne_empty_left _ (by decide))
  · rw [if_neg h]
    exact pyJoin_cons_ne_empty _ _ _ (append_ne_empty_left _ (by decide))

/-! ## Claim C8: `k` is clamped to 1–20 -/

/-- **C8.** Both search tools send `max(1, min(20, k))` to the external
vector store: inputs below 1 become 1, inputs above 20 become 20, in-range
inputs pass unchanged; the instrumented store observes exactly the clamped
value. -/
theorem kb_search_k_clamped :
    (∀ k : Int, 1 ≤ kb_clamp k ∧ kb_clamp k ≤ 20) ∧
    (∀ k : Int, k < 1 → kb_clamp k = 1) ∧
    (∀ k : Int, 20 < k → kb_clamp k = 20) ∧
    (∀ k : Int, 1 ≤ k → k ≤ 20 → kb_clamp k = k) ∧
    (∀ vs path query k, kb_search_tables vs path query k =
      _search_tables vs path query (kb_clamp k)) ∧
    (∀ vs path query k, kb_search_requirements vs path query k =
      _search_requirements vs path query (kb_clamp k)) ∧
    (∀ path query k, kb_search_tables (some probe_store) path query k =
      "❌ 表结构检索失败: " ++ toString (kb_clamp k)) ∧
    (∀ path query k, kb_search_requirements (some probe_store) path query k =
      "❌ 业务需求检索失败: " ++ toString (kb_clamp k)) := by
  refine ⟨fun k => ⟨?_, ?_⟩, fun k h => ?_, fun k h => ?_, fun k h1 h2 => ?_,
    fun _ _ _ _ => rfl, fun _ _ _ _ => rfl, fun _ _ _ => rfl, fun _ _ _ => rfl⟩ <;>
    simp only [kb_clamp] <;> omega

/-- Witness for C8 at concrete values of `k`. -/
theorem kb_search_k_clamped_witness :
    kb_clamp (-3) = 1 ∧ kb_clamp 25 = 20 ∧ kb_clamp 5 = 5 ∧
    kb_search_tables (some probe_store) "p" "q" 25 =
      "❌ 表结构检索失败: " ++ toString (kb_clamp 25) :=
  ⟨kb_search_k_clamped.2.1 (-3) (by decide),
   kb_search_k_clamped.2.2.1 25 (by decide),
   kb_search_k_clamped.2.2.2.1 5 (by decide) (by decide),
   kb_search_k_clamped.2.2.2.2.2.2.1 "p" "q" 25⟩

/-! ## Claim C9: zero results vs. failures -/

/-- **C9.** With zero similarity results the tools return the fixed
non-empty "no results" message; an initialisation or transport failure
returns a message starting with `❌`, while the "no results" messages start
with `未`, so the two are always distinguishable; and every returned
string is non-empty. -/
theorem search_zero_results_message :
    (∀ (f : String → Int → Except String (List (Document × ℚ))) path q k,
      f q k = .ok [] →
        _search_tables (some ⟨f⟩) path q k = "未找到相关表结构信息。" ∧
        _search_requirements (some ⟨f⟩) path q k = "未找到相关业务需求。") ∧
    (∀ (f : String → Int → Except String (List (Document × ℚ))) path q k e,
      f q k = .error e →
        _search_tables (some ⟨f⟩) path q k = "❌ 表结构检索失败: " ++ e ∧
        _search_requirements (some ⟨f⟩) path q k = "❌ 业务需求检索失败: " ++ e) ∧
    (∀ path q k,
      _search_tables none path q k = "❌ 表结构知识库未初始化，请检查路径: " ++ path ∧
      _search_requirements none path q k = "❌ 业务需求知识库未初始化，请检查路径: " ++ path) ∧
    (∀ vs path q k,
      _search_tables vs path q k ≠ "" ∧ _search_requirements vs path q k ≠ "") ∧
    (first_char "未找到相关表结构信息。" = some '未' ∧
     first_char "未找到相关业务需求。" = some '未' ∧
     (∀ e, first_char ("❌ 表结构检索失败: " ++ e) = some '❌') ∧
     (∀ e, first_char ("❌ 业务需求检索失败: " ++ e) = some '❌') ∧
     (∀ p, first_char ("❌ 表结构知识库未初始化，请检查路径: " ++ p) = some '❌') ∧
     (∀ p, first_char ("❌ 业务需求知识库未初始化，请检查路径: " ++ p) = some '❌') ∧
     '未' ≠ '❌') := by
  refine ⟨fun f path q k h => ?_, fun f path q k e h => ?_, fun path q k => ⟨rfl, rfl⟩,
    fun vs path q k => ?_, by decide, by decide, fun e => rfl, fun e => rfl,
    fun p => rfl, fun p => rfl, by decide⟩
  · constructor <;> simp [_search_tables, _search_requirements, h]
  · constructor <;> simp [_search_tables, _search_requirements, h]
  · cases vs with
    | none =>
      exact ⟨append_ne_empty_left _ (by decide), append_ne_empty_left _ (by decide)⟩
    | some vs =>
      constructor
      · rw [_search_tables]
        cases vs.similarity_search_with_score q k with
        | error e => exact append_ne_empty_left _ (by decide)
        | ok results =>
          by_cases hr : results = []
          · simp only [hr, if_pos]; decide
          · simp only [if_neg hr]; exact format_table_results_ne_empty results q
      · rw [_search_requirements]
        cases vs.similarity_search_with_score q k with
        | error e => exact append_ne_empty_left _ (by decide)
        | ok results =>
          by_cases hr : results = []
          · simp only [hr, if_pos]; decide
          · simp only [if_neg hr]; exact format_requirement_results_ne_empty results q

/-- Witness for C9 with concrete stores that return no results and an
error respectively. -/
theorem search_zero_results_message_witness :
    _search_tables (some ⟨fun _ _ => .ok []⟩) "p" "q" 5 = "未找到相关表结构信息。" ∧
    _search_tables (some ⟨fun _ _ => .error "boom"⟩) "p" "q" 5 =
      "❌ 表结构检索失败: " ++ "boom" ∧
    _search_tables (some ⟨fun _ _ => .ok []⟩) "p" "q" 5 ≠ "" :=
  ⟨(search_zero_results_message.1 (fun _ _ => .ok []) "p" "q" 5 rfl).1,
   (search_zero_results_message.2.1 (fun _ _ => .error "boom") "p" "q" 5 "boom" rfl).1,
   (search_zero_results_message.2.2.2.1 (some ⟨fun _ _ => .ok []⟩) "p" "q" 5).1⟩

/-! ## Chunking (`build_vector_store`, lines 400–422)

`RecursiveCharacterTextSplitter.split_documents` is external LangChain
code, modelled as a parameter; the loop itself decides per document
whether to split. -/

/-- The per-document branch of the chunking loop (lines 412–422): split
only when the content length strictly exceeds `chunk_size`. -/
def chunk_one (split_documents : Document → List Document) (chunk_size : Nat)
    (doc : Document) : List Document :=
  if doc.page_content.length > chunk_size then split_documents doc else [doc]

/-- The `final_documents` list built by the loop. -/
def final_documents (split_documents : Document → List Document) (chunk_size : Nat)
    (all_documents : List Document) : List Document :=
  (all_documents.map (chunk_one split_documents chunk_size)).flatten

/-! ## Claim C5: short documents are passed through unchanged -/

/-- **C5.** A document whose content length is at most `chunk_size`
produces exactly one chunk, equal to the input (content and metadata
unchanged), whatever the external splitter does; a list of such documents
passes through the chunking stage unchanged.  Splitting is invoked only
when the length strictly exceeds `chunk_size`. -/
theorem chunk_short_doc_identity :
    (∀ split_documents chunk_size doc, doc.page_content.length ≤ chunk_size →
      chunk_one split_documents chunk_size doc = [doc]) ∧
    (∀ split_documents chunk_size doc, chunk_one split_documents chunk_size doc ≠ [doc] →
      doc.page_content.length > chunk_size) ∧
    (∀ split_documents chunk_size all_documents,
      (∀ doc ∈ all_documents, doc.page_content.length ≤ chunk_size) →
      final_documents split_documents chunk_size all_documents = all_documents) := by
  have h1 : ∀ (split_documents : Document → List Document) (chunk_size : Nat)
      (doc : Document), doc.page_content.length ≤ chunk_size →
      chunk_one split_documents chunk_size doc = [doc] := by
    intro split chunk_size doc h
    rw [chunk_one, if_neg (Nat.not_lt.mpr h)]
  refine ⟨h1, ?_, ?_⟩
  · intro split chunk_size doc h
    by_contra hc
    exact h (h1 split chunk_size doc (Nat.not_lt.mp hc))
  · intro split chunk_size docs h
    induction docs with
    | nil => rfl
    | cons d ds ih =>
      rw [final_documents, List.map_cons, List.flatten_cons,
        h1 split chunk_size d (h d (List.mem_cons_self ..))]
      have := ih (fun doc hd => h doc (List.mem_cons_of_mem _ hd))
      rw [final_documents] at this
      rw [this]
      rfl

/-- Witness for C5 on a concrete short document. -/
theorem chunk_short_doc_identity_witness :
    ("hi" : String).length ≤ 2000 ∧
    chunk_one (fun _ => []) 2000 ⟨"hi", []⟩ = [⟨"hi", []⟩] :=
  ⟨by decide, chunk_short_doc_identity.1 (fun _ => []) 2000 ⟨"hi", []⟩ (by decide)⟩

/-! ## Column and index extraction from a CREATE TABLE body
(`_parse_table_fields`, lines 282–319; `_extract_indexes`, lines 321–346
of `build_knowledge_base.py`) -/

/-- Does the remainder satisfy the optional tail `(?:,\s*)$` with the comma
branch: a comma followed only by whitespace? -/
def is_comma_spaces : List Char → Bool
  | c :: rest => c = ',' && rest.all isSpaceChar
  | [] => false

/-- Group 2 of `` `(\w+)`\s+(.*?)(?:,\s*)?$ ``: the lazy group stops at the
leftmost position whose remainder is empty or a comma followed only by
whitespace. -/
def chop_field_def : List Char → List Char
  | [] => []
  | c :: rest => if is_comma_spaces (c :: rest) then [] else c :: chop_field_def rest

/-- `re.match(r"`(\w+)`\s+(.*?)(?:,\s*)?$", line)`: anchored at the line
start; returns the field name (group 1) and the field definition
(group 2). -/
def field_match (l : List Char) : Option (String × List Char) :=
  match l with
  | c :: rest =>
    if c = '`' then
      let w := rest.takeWhile isWordChar
      let r2 := rest.dropWhile isWordChar
      if w = [] then none else
      match r2 with
      | c2 :: r3 =>
        if c2 = '`' then
          let sp := r3.takeWhile isSpaceChar
          let r4 := r3.dropWhile isSpaceChar
          if sp = [] then none else some (String.mk w, chop_field_def r4)
        else none
      | [] => none
    else none
  | [] => none

/-- The lazy group `(.*?)'`: content up to the first quote, plus the
remainder after the quote; `none` when no closing quote exists. -/
def take_until_quote : List Char → Option (List Char × List Char)
  | [] => none
  | c :: rest =>
    if c = '\'' then some ([], rest)
    else (take_until_quote rest).map (fun p => (c :: p.1, p.2))

/-- Try `COMMENT\s+'(.*?)'` anchored at the current position
(case-sensitive, as in the source); returns the comment text and the
remainder after the closing quote. -/
def try_comment_at (l : List Char) : Option (List Char × List Char) :=
  match matchLit "COMMENT".data l with
  | none => none
  | some r1 =>
    let sp := r1.takeWhile isSpaceChar
    let r2 := r1.dropWhile isSpaceChar
    if sp = [] then none else
    match r2 with
    | c :: r3 => if c = '\'' then take_until_quote r3 else none
    | [] => none

/-- `re.search(r"COMMENT\s+'(.*?)'", field_def)`: leftmost occurrence. -/
def find_comment : List Char → Option (List Char)
  | [] => none
  | c :: rest =>
    match try_comment_at (c :: rest) with
    | some p => some p.1
    | none => find_comment rest

/-- One attempt of the substitution pattern `\s*COMMENT\s+'.*?'` at the
current position; returns the remainder after the match. -/
def try_sub_at (l : List Char) : Option (List Char) :=
  (try_comment_at (l.dropWhile isSpaceChar)).map Prod.snd

/-- `re.sub(r"\s*COMMENT\s+'.*?'", "", field_def)`: remove every
non-overlapping occurrence, scanning left to right.  `fuel` is the input
length; a successful match consumes at least eight characters. -/
def sub_comment_aux : Nat → List Char → List Char
  | 0, l => l
  | _ + 1, [] => []
  | fuel + 1, c :: rest =>
    match try_sub_at (c :: rest) with
    | some r => sub_comment_aux fuel r
    | none => c :: sub_comment_aux fuel rest

/-- `re.sub(r"\s*COMMENT\s+'.*?'", "", l)`. -/
def sub_comment (l : List Char) : List Char := sub_comment_aux l.length l

/-- The body of the per-line loop of `_parse_table_fields`
(lines 295–316): strip the line; skip empty lines and lines starting with
`PRIMARY KEY`, `KEY ` or `CONSTRAINT`; otherwise match the column regex
and render `  - name: type  // comment` or `  - name: def`. -/
def parse_field_line (rawLine : String) : Option String :=
  let line := pyStrip rawLine
  if line == "" || startsWithLit "PRIMARY KEY" line || startsWithLit "KEY " line
      || startsWithLit "CONSTRAINT" line then none
  else
    match field_match line.data with
    | none => none
    | some (field_name, field_def) =>
      match find_comment field_def with
      | some comment =>
        some ("  - " ++ field_name ++ ": " ++ pyStrip (String.mk (sub_comment field_def))
              ++ "  // " ++ String.mk comment)
      | none => some ("  - " ++ field_name ++ ": " ++ String.mk field_def)

/-- `KnowledgeBaseBuilder._parse_table_fields` (lines 282–319): the
rendered field listing and the field count. -/
def _parse_table_fields (table_definition : String) : String × Nat :=
  let fields := (pySplitLines table_definition).filterMap parse_field_line
  (if fields = [] then "无字段信息" else pyJoin "\n" fields, fields.length)

/-- The lazy group `(.*?)\)`: content up to the first closing
parenthesis. -/
def take_until_paren : List Char → Option (List Char)
  | [] => none
  | c :: rest => if c = ')' then some [] else (take_until_paren rest).map (c :: ·)

/-- `re.match(r"(?:KEY|INDEX)\s+`?(\w+)`?\s+\((.*?)\)", line)`: index name
and parenthesised column list. -/
def idx_match (l : List Char) : Option (String × String) :=
  match matchLit "KEY".data l <|> matchLit "INDEX".data l with
  | none => none
  | some r1 =>
    let sp := r1.takeWhile isSpaceChar
    let r2 := r1.dropWhile isSpaceChar
    if sp = [] then none else
    let r3 := stripBacktick r2
    let w := r3.takeWhile isWordChar
    let r4 := r3.dropWhile isWordChar
    if w = [] then none else
    let r5 := stripBacktick r4
    let sp2 := r5.takeWhile isSpaceChar
    let r6 := r5.dropWhile isSpaceChar
    if sp2 = [] then none else
    match r6 with
    | c :: r7 =>
      if c = '(' then
        (take_until_paren r7).map (fun cols => (String.mk w, String.mk cols))
      else none
    | [] => none

/-- The body of the per-line loop of `_extract_indexes` (lines 334–344):
`PRIMARY KEY` lines are recorded verbatim; `KEY `/`INDEX ` lines are
parsed by the index regex. -/
def index_line (rawLine : String) : Option String :=
  let line := pyStrip rawLine
  if startsWithLit "PRIMARY KEY" line then some ("  - PRIMARY KEY: " ++ line)
  else if startsWithLit "KEY " line || startsWithLit "INDEX " line then
    (idx_match line.data).map (fun p => "  - INDEX " ++ p.1 ++ ": " ++ p.2)
  else none

/-- `KnowledgeBaseBuilder._extract_indexes` (lines 321–346). -/
def _extract_indexes (table_definition : String) : String :=
  let indexes := (pySplitLines table_definition).filterMap index_line
  if indexes = [] then "  - 无索引" else pyJoin "\n" indexes

theorem listPrefix_head {p : Char} {ps l : List Char}
    (h : listPrefix (p :: ps) l = true) : ∃ t, l = p :: t := by
  cases l with
  | nil => simp [listPrefix] at h
  | cons c t =>
    refine ⟨t, ?_⟩
    simp only [listPrefix, Bool.and_eq_true, decide_eq_true_iff] at h
    rw [h.1]

/-! ## Claim C6: constraint/index lines -/

/-- **C6.** A line of a CREATE TABLE body that (after stripping) starts
with `PRIMARY KEY`, `KEY `, `INDEX ` or `CONSTRAINT` contributes no column
record — the first three are skipped explicitly, and an `INDEX ` line
cannot match the backtick-anchored column regex — and is handled by index
extraction instead: `PRIMARY KEY` lines are recorded verbatim, `KEY` /
`INDEX` lines are parsed by the index regex for a (possibly backtick-
quoted) index name and a parenthesised column list.  The concrete
evaluations exercise all three kinds of line. -/
theorem constraint_lines_excluded :
    (∀ rawLine : String,
      (startsWithLit "PRIMARY KEY" (pyStrip rawLine) = true ∨
       startsWithLit "KEY " (pyStrip rawLine) = true ∨
       startsWithLit "INDEX " (pyStrip rawLine) = true ∨
       startsWithLit "CONSTRAINT" (pyStrip rawLine) = true) →
      parse_field_line rawLine = none) ∧
    (∀ rawLine : String, startsWithLit "PRIMARY KEY" (pyStrip rawLine) = true →
      index_line rawLine = some ("  - PRIMARY KEY: " ++ pyStrip rawLine)) ∧
    (∀ rawLine : String,
      (startsWithLit "KEY " (pyStrip rawLine) = true ∨
       startsWithLit "INDEX " (pyStrip rawLine) = true) →
      index_line rawLine =
        (idx_match (pyStrip rawLine).data).map
          (fun p => "  - INDEX " ++ p.1 ++ ": " ++ p.2)) ∧
    idx_match ("KEY `idx_user` (`user_id`,`status`)").data =
      some ("idx_user", "`user_id`,`status`") ∧
    _parse_table_fields "`id` int NOT NULL COMMENT '主键',\nPRIMARY KEY (`id`),\nKEY `k1` (`a`)"
      = ("  - id: int NOT NULL  // 主键", 1) ∧
    _extract_indexes "`id` int NOT NULL COMMENT '主键',\nPRIMARY KEY (`id`),\nKEY `k1` (`a`)"
      = "  - PRIMARY KEY: PRIMARY KEY (`id`),\n  - INDEX k1: `a`" := by
  refine ⟨?_, ?_, ?_, by decide, by decide, by decide⟩
  · intro rawLine h
    rw [parse_field_line]
    by_cases hc : (pyStrip rawLine == "" || startsWithLit "PRIMARY KEY" (pyStrip rawLine)
        || startsWithLit "KEY " (pyStrip rawLine)
        || startsWithLit "CONSTRAINT" (pyStrip rawLine)) = true
    · rw [if_pos hc]
    · rw [if_neg hc]
      have hfm : field_match (pyStrip rawLine).data = none := by
        rcases h with h | h | h | h <;>
          obtain ⟨t, ht⟩ := listPrefix_head h <;> rw [ht] <;> simp [field_match]
      rw [hfm]
  · intro rawLine h
    rw [index_line, if_pos h]
  · intro rawLine h
    have hP : ¬ startsWithLit "PRIMARY KEY" (pyStrip rawLine) = true := by
      intro hp
      obtain ⟨t, ht⟩ := listPrefix_head hp
      rcases h with h | h <;> obtain ⟨t', ht'⟩ := listPrefix_head h <;>
        rw [ht] at ht' <;> simp at ht'
    rw [index_line, if_neg hP, if_pos (by rcases h with h | h <;> simp [h])]

/-! ## Schema parsing: CREATE TABLE blocks (`load_schema_documents`,
lines 205–280 of `build_knowledge_base.py`)

The block regex is
`` CREATE TABLE `(\w+)`\s*\((.*?)\)\s*ENGINE=.*?(?:COMMENT='(.*?)')?; ``
with `re.DOTALL | re.IGNORECASE`, scanned by `re.finditer`. -/

/-- One parsed CREATE TABLE block: groups 1–3 of the block regex. -/
structure RawTable where
  table_name : String
  table_definition : String
  table_comment : Option String
deriving DecidableEq

/-- The comment group `(.*?)'` followed by `;`: because the group is lazy
and the `;` must follow the closing quote, the content ends at the first
quote that is immediately followed by a semicolon; returns the content and
the remainder after the semicolon. -/
def find_quote_semi : List Char → Option (List Char × List Char)
  | [] => none
  | c :: rest =>
    if c = '\'' then
      match rest with
      | c2 :: r2 =>
        if c2 = ';' then some ([], r2)
        else (find_quote_semi rest).map (fun p => (c :: p.1, p.2))
      | [] => none
    else (find_quote_semi rest).map (fun p => (c :: p.1, p.2))

/-- Try `COMMENT='(.*?)';` at the current position (the optional group of
the block regex plus the final semicolon). -/
def try_comment_grp (l : List Char) : Option (List Char × List Char) :=
  match matchLitCI "COMMENT='".data l with
  | none => none
  | some r1 => find_quote_semi r1

/-- `.*?(?:COMMENT='(.*?)')?;` with `DOTALL`: scan forward lazily; at each
position first try the optional comment group (greedy `?`), then a bare
semicolon.  Returns group 3 (when present) and the remainder after the
semicolon. -/
def try_tail : List Char → Option (Option String × List Char)
  | [] => none
  | c :: rest =>
    match try_comment_grp (c :: rest) with
    | some (content, r) => some (some (String.mk content), r)
    | none =>
      if c = ';' then some (none, rest)
      else try_tail rest

/-- `\s*ENGINE=` then the lazy tail, at the position after `)`. -/
def try_engine (l : List Char) : Option (Option String × List Char) :=
  match matchLitCI "ENGINE=".data (l.dropWhile isSpaceChar) with
  | none => none
  | some r2 => try_tail r2

/-- The lazy body `(.*?)\)` followed by `\s*ENGINE=...;`: the body stops at
the first closing parenthesis whose continuation matches. -/
def try_body : List Char → Option (List Char × Option String × List Char)
  | [] => none
  | c :: rest =>
    if c = ')' then
      match try_engine rest with
      | some (cmt, r) => some ([], cmt, r)
      | none => (try_body rest).map (fun p => (c :: p.1, p.2))
    else (try_body rest).map (fun p => (c :: p.1, p.2))

/-- Try the whole block regex anchored at the current position; returns the
parsed block and the remainder after the final semicolon. -/
def try_create_at (l : List Char) : Option (RawTable × List Char) :=
  match matchLitCI "CREATE TABLE `".data l with
  | none => none
  | some r1 =>
    let w := r1.takeWhile isWordChar
    let r2 := r1.dropWhile isWordChar
    if w = [] then none else
    match r2 with
    | c :: r3 =>
      if c = '`' then
        match r3.dropWhile isSpaceChar with
        | c2 :: r5 =>
          if c2 = '(' then
            match try_body r5 with
            | some (body, cmt, rest) => some (⟨String.mk w, String.mk body, cmt⟩, rest)
            | none => none
          else none
        | [] => none
      else none
    | [] => none

/-- `re.finditer` over the whole schema text: scan left to right,
continuing after each match; `fuel` is the input length. -/
def scan_tables_aux : Nat → List Char → List RawTable
  | 0, _ => []
  | _ + 1, [] => []
  | fuel + 1, c :: cs =>
    match try_create_at (c :: cs) with
    | some (t, rest) => t :: scan_tables_aux fuel rest
    | none => scan_tables_aux fuel cs

/-- All CREATE TABLE blocks of a schema text, in order. -/
def scan_tables (s : String) : List RawTable := scan_tables_aux s.data.length s.data

/-- Witness for C6 on concrete constraint lines. -/
theorem constraint_lines_excluded_witness :
    parse_field_line "  PRIMARY KEY (`id`)," = none ∧
    parse_field_line "INDEX `i1` (`a`)" = none ∧
    index_line "  PRIMARY KEY (`id`)," =
      some ("  - PRIMARY KEY: " ++ pyStrip "  PRIMARY KEY (`id`),") ∧
    index_line "KEY `k1` (`a`)" =
      (idx_match (pyStrip "KEY `k1` (`a`)").data).map
        (fun p => "  - INDEX " ++ p.1 ++ ": " ++ p.2) :=
  ⟨constraint_lines_excluded.1 _ (Or.inl (by decide)),
   constraint_lines_excluded.1 _ (Or.inr (Or.inr (Or.inl (by decide)))),
   constraint_lines_excluded.2.1 _ (by decide),
   constraint_lines_excluded.2.2.1 _ (Or.inl (by decide))⟩

/-! ## Document construction

`hashlib.md5` (an external library routine applied to the UTF-8 bytes of
the content) and `datetime.now().isoformat()` are parameters `md5` and
`now` of the builders. -/

/-- `table_comment = match.group(3) or "无描述"`: a missing group and an
empty comment both fall back to the default. -/
def table_comment_str (c : Option String) : String :=
  match c with
  | some s => if s = "" then "无描述" else s
  | none => "无描述"

/-- The schema document content template (lines 243–257 of
`build_knowledge_base.py`). -/
def schema_doc_content (t : RawTable) : String :=
  let cmt := table_comment_str t.table_comment
  let fi := _parse_table_fields t.table_definition
  "表名: " ++ t.table_name ++ "\n\n表说明: " ++ cmt ++ "\n\n字段信息 (共 " ++ toString fi.2
    ++ " 个字段):\n" ++ fi.1 ++ "\n\n索引信息:\n" ++ _extract_indexes t.table_definition
    ++ "\n\n完整DDL:\nCREATE TABLE `" ++ t.table_name ++ "` (\n"
    ++ pyStrip t.table_definition ++ "\n) COMMENT='" ++ cmt ++ "';\n"

/-- One schema `Document` (lines 259–276): content plus metadata with
`content_hash = md5(content)` and `created_at = now`. -/
def schema_doc (md5 : String → String) (now : String) (t : RawTable) : Document :=
  let content := schema_doc_content t
  ⟨content,
   [("source", .str "database_schema"),
    ("table_name", .str t.table_name),
    ("table_comment", .str (table_comment_str t.table_comment)),
    ("type", .str "table_schema"),
    ("database", .str "singa_bi"),
    ("field_count", .int (_parse_table_fields t.table_definition).2),
    ("content_hash", .str (md5 content)),
    ("created_at", .str now)]⟩

/-- The text-processing part of
`KnowledgeBaseBuilder.load_schema_documents` (lines 224–280): one document
per matched CREATE TABLE block. -/
def load_schema_documents_docs (md5 : String → String) (now : String)
    (schema_content : String) : List Document :=
  (scan_tables schema_content).map (schema_doc md5 now)

/-- The spec's error type for the schema parser. -/
structure ParseError where
  msg : String
deriving DecidableEq

/-- `load_schema_documents` viewed through the spec's fallible contract.
The source contains no `raise` on this path: for every input text it
returns the (possibly empty) list of documents for the blocks that
matched, so the embedding is always `Except.ok`.  (The only `try/except`
in the function guards the file read, which is outside the text input.) -/
def load_schema_documents (md5 : String → String) (now : String)
    (schema_content : String) : Except ParseError (List Document) :=
  .ok (load_schema_documents_docs md5 now schema_content)

/-- Business-query record fields used by `load_query_documents`
(`query_data['name']`, `query_data['business_requirement']`,
`query_data.get('sql', '')`). -/
structure QueryData where
  name : String
  business_requirement : String
  sql : String
deriving DecidableEq

/-- The query document content template (lines 139–149 of
`build_knowledge_base.py`). -/
def query_doc_content (query_id : String) (q : QueryData) : String :=
  let tables := _extract_tables_from_sql q.sql
  "查询ID: " ++ query_id ++ "\n查询名称: " ++ q.name ++ "\n\n业务需求:\n"
    ++ q.business_requirement ++ "\n\n涉及的表: "
    ++ (if tables = [] then "未知" else pyJoin ", " tables)
    ++ "\n\nSQL语句:\n" ++ q.sql ++ "\n"

/-- One query `Document` (lines 151–169): content plus metadata with
`content_hash = md5(content)` and `created_at = now`. -/
def query_doc (md5 : String → String) (now : String)
    (query_id : String) (q : QueryData) : Document :=
  let content := query_doc_content query_id q
  ⟨content,
   [("source", .str "query_business_requirements"),
    ("query_id", .str query_id),
    ("query_name", .str q.name),
    ("type", .str "business_query"),
    ("has_sql", .bool true),
    ("business_requirement", .str q.business_requirement),
    ("tables", .str (pyJoin "," (_extract_tables_from_sql q.sql))),
    ("content_hash", .str (md5 content)),
    ("created_at", .str now)]⟩

/-- The text-processing part of `KnowledgeBaseBuilder.load_query_documents`
(lines 110–173); the JSON mapping is modelled as an association list in
iteration order. -/
def load_query_documents (md5 : String → String) (now : String)
    (queries : List (String × QueryData)) : List Document :=
  queries.map (fun p => query_doc md5 now p.1 p.2)

/-- Query record fields used by the enhanced builder
(`value.get("name", "")`, `value.get("business_requirement", "")`). -/
structure EnhQuery where
  name : String
  business_requirement : String
deriving DecidableEq

/-- `build_query_requirements_kb` of `build_knowledge_base_enhanced.py`
(lines 44–82): content template and metadata — note there is no
`content_hash` and no `created_at` key. -/
def build_query_requirements_kb (query_data : List (String × EnhQuery)) : List Document :=
  query_data.map (fun p =>
    ⟨"查询ID: " ++ p.1 ++ "\n查询名称: " ++ p.2.name ++ "\n\n业务需求: "
        ++ p.2.business_requirement,
     [("query_id", .str p.1),
      ("name", .str p.2.name),
      ("requirement", .str p.2.business_requirement),
      ("source", .str "query_business_requirements")]⟩)

/-! ## Claim C3: the schema parser never throws -/

/-- **C3, counterexample.**  The claim says the parser fails with
`ParseError` when the input contains no matching CREATE TABLE block; in
the code there is no raise on this path: on the block-free input
`"no tables here"` it returns `Except.ok []` (zero matches, reported as an
empty document list), not an error. -/
theorem schema_parse_no_throw_counterexample :
    scan_tables "no tables here" = [] ∧
    load_schema_documents (fun s => s) "t0" "no tables here" = .ok [] :=
  ⟨by decide, rfl⟩

/-- **C3 (amended).**  For every input text the parser returns normally:
zero matching blocks yield `ok []`, and an input with at least one
matching block yields exactly the documents of the blocks that matched —
a partially malformed file still yields the tables that did match.  The
concrete input has one well-formed block followed by garbage. -/
theorem schema_parse_never_throws :
    (∀ md5 now text, (load_schema_documents md5 now text).isOk = true) ∧
    (∀ md5 now text, load_schema_documents md5 now text =
      .ok ((scan_tables text).map (schema_doc md5 now))) ∧
    scan_tables "CREATE TABLE `users` (\n`id` int\n) ENGINE=InnoDB;\nGARBAGE NOT A TABLE (((" =
      [⟨"users", "\n`id` int\n", none⟩] ∧
    (load_schema_documents_docs (fun s => s) "t0"
        "CREATE TABLE `users` (\n`id` int\n) ENGINE=InnoDB;\nGARBAGE NOT A TABLE (((").map
      (fun d => metadata_get d "table_name" "") = ["users"] := by
  exact ⟨fun _ _ _ => rfl, fun _ _ _ => rfl, by decide, by decide⟩

/-- Witness for C3 (amended) at a concrete input. -/
theorem schema_parse_never_throws_witness :
    (load_schema_documents (fun s => s) "t0" "x").isOk = true ∧
    load_schema_documents (fun s => s) "t0" "x" =
      .ok ((scan_tables "x").map (schema_doc (fun s => s) "t0")) :=
  ⟨schema_parse_never_throws.1 (fun s => s) "t0" "x",
   schema_parse_never_throws.2.1 (fun s => s) "t0" "x"⟩

/-! ## Claim C7: `content_hash` and `created_at` metadata -/

theorem load_query_documents_hash {md5 : String → String} {now : String}
    {queries : List (String × QueryData)} {d : Document}
    (hd : d ∈ load_query_documents md5 now queries) :
    d.metadata.lookup "content_hash" = some (.str (md5 d.page_content)) ∧
    d.metadata.lookup "created_at" = some (.str now) := by
  obtain ⟨p, _, rfl⟩ := List.mem_map.mp hd
  exact ⟨rfl, rfl⟩

theorem load_schema_documents_hash {md5 : String → String} {now : String}
    {text : String} {d : Document}
    (hd : d ∈ load_schema_documents_docs md5 now text) :
    d.metadata.lookup "content_hash" = some (.str (md5 d.page_content)) ∧
    d.metadata.lookup "created_at" = some (.str now) := by
  obtain ⟨t, _, rfl⟩ := List.mem_map.mp hd
  exact ⟨rfl, rfl⟩

/-- **C7, counterexample.**  Not every builder path attaches the
universal metadata: the enhanced builder's business-query documents
(`build_query_requirements_kb` in `build_knowledge_base_enhanced.py`)
carry neither a `content_hash` nor a `created_at` key. -/
theorem enhanced_builder_no_content_hash :
    (build_query_requirements_kb [("q1", ⟨"n", "r"⟩)]).map
      (fun d => (d.metadata.lookup "content_hash", d.metadata.lookup "created_at"))
      = [(none, none)] := by
  decide

/-- **C7 (amended).**  Every document built by `build_knowledge_base.py`
(`load_query_documents` and `load_schema_documents`) carries
`content_hash = md5(content)` and a `created_at` timestamp in addition to
its category-specific fields, and any two such documents with identical
content carry identical `content_hash` values; the enhanced builder's
documents (`build_query_requirements_kb`) carry neither key. -/
theorem content_hash_metadata_spec :
    (∀ (md5 : String → String) now queries, ∀ d ∈ load_query_documents md5 now queries,
      d.metadata.lookup "content_hash" = some (.str (md5 d.page_content)) ∧
      d.metadata.lookup "created_at" = some (.str now)) ∧
    (∀ (md5 : String → String) now text, ∀ d ∈ load_schema_documents_docs md5 now text,
      d.metadata.lookup "content_hash" = some (.str (md5 d.page_content)) ∧
      d.metadata.lookup "created_at" = some (.str now)) ∧
    (∀ (md5 : String → String) now queries text d d',
      d ∈ load_query_documents md5 now queries ++ load_schema_documents_docs md5 now text →
      d' ∈ load_query_documents md5 now queries ++ load_schema_documents_docs md5 now text →
      d.page_content = d'.page_content →
      d.metadata.lookup "content_hash" = d'.metadata.lookup "content_hash") ∧
    (∀ query_data, ∀ d ∈ build_query_requirements_kb query_data,
      d.metadata.lookup "content_hash" = none ∧
      d.metadata.lookup "created_at" = none) := by
  refine ⟨fun md5 now queries d hd => load_query_documents_hash hd,
          fun md5 now text d hd => load_schema_documents_hash hd,
          fun md5 now queries text d d' hd hd' hpc => ?_, fun query_data d hd => ?_⟩
  · have hash_of : ∀ x,
        x ∈ load_query_documents md5 now queries ++ load_schema_documents_docs md5 now text →
        x.metadata.lookup "content_hash" = some (.str (md5 x.page_content)) := by
      intro x hx
      rcases List.mem_append.mp hx with hx | hx
      · exact (load_query_documents_hash hx).1
      · exact (load_schema_documents_hash hx).1
    rw [hash_of d hd, hash_of d' hd', hpc]
  · obtain ⟨p, _, rfl⟩ := List.mem_map.mp hd
    exact ⟨rfl, rfl⟩

/-- Witness for C7 (amended) on a concrete query document. -/
theorem content_hash_metadata_spec_witness :
    (query_doc (fun s => s) "T" "q1" ⟨"n", "r", "SELECT 1"⟩).metadata.lookup "content_hash"
      = some (.str (query_doc (fun s => s) "T" "q1" ⟨"n", "r", "SELECT 1"⟩).page_content) ∧
    (query_doc (fun s => s) "T" "q1" ⟨"n", "r", "SELECT 1"⟩).metadata.lookup "created_at"
      = some (.str "T") :=
  content_hash_metadata_spec.1 (fun s => s) "T" [("q1", ⟨"n", "r", "SELECT 1"⟩)] _
    (List.mem_singleton.mpr rfl)

/-! ## Claim C1: the build pipeline re-embeds everything -/

/-- The documents that `build_vector_store` (lines 348–512 of
`build_knowledge_base.py`) sends to the embedding service and upserts into
Chroma: it loads both sources, merges them, chunks oversized documents,
and then embeds every final document — via `Chroma.from_documents` for at
most 100 documents, or `add_documents` over consecutive batches otherwise.
No `content_hash` is ever compared against a previously persisted index:
the embedded set does not depend on any persisted state, which is why this
function has no parameter for it. -/
def build_vector_store_embedded_documents (split_documents : Document → List Document)
    (md5 : String → String) (now : String) (chunk_size : Nat)
    (queries : List (String × QueryData)) (schema_text : String) : List Document :=
  final_documents split_documents chunk_size
    (load_query_documents md5 now queries ++ load_schema_documents_docs md5 now schema_text)

/-- **C1.**  Evaluating the build at the failing input: one unchanged query
document and an empty schema.  A second run with identical sources embeds
the same one document again — the embedded set equals the full document
list on every run and never shrinks to zero for unchanged hashes, because
`build_vector_store` never consults the persisted index (contradicting its
own docstrings `支持增量更新` / `智能增量更新机制`). -/
theorem build_reembeds_unchanged_documents :
    ∀ (split_documents : Document → List Document) (md5 : String → String) (now : String),
      build_vector_store_embedded_documents split_documents md5 now 2000
          [("q1", ⟨"订单统计", "统计每日订单量", "SELECT * FROM t1"⟩)] ""
        = load_query_documents md5 now [("q1", ⟨"订单统计", "统计每日订单量", "SELECT * FROM t1"⟩)] ∧
      (load_query_documents md5 now
          [("q1", ⟨"订单统计", "统计每日订单量", "SELECT * FROM t1"⟩)]).length = 1 := by
  intro split_documents md5 now
  have h1 : chunk_one split_documents 2000
      (query_doc md5 now "q1" ⟨"订单统计", "统计每日订单量", "SELECT * FROM t1"⟩)
      = [query_doc md5 now "q1" ⟨"订单统计", "统计每日订单量", "SELECT * FROM t1"⟩] := by
    rw [chunk_one, if_neg]
    exact (by decide :
      ¬ (query_doc_content "q1" ⟨"订单统计", "统计每日订单量", "SELECT * FROM t1"⟩).length > 2000)
  refine ⟨?_, rfl⟩
  show final_documents split_documents 2000
      (load_query_documents md5 now [("q1", ⟨"订单统计", "统计每日订单量", "SELECT * FROM t1"⟩)]
        ++ load_schema_documents_docs md5 now "") = _
  rw [show load_schema_documents_docs md5 now "" = [] from rfl, List.append_nil]
  show (List.map (chunk_one split_documents 2000)
      [query_doc md5 now "q1" ⟨"订单统计", "统计每日订单量", "SELECT * FROM t1"⟩]).flatten = _
  rw [List.map_cons, List.map_nil, h1]
  rfl

end BIAI
